import Mathlib

/-
Shallow embedding of the metadataGrabber fetch core
(src/metadata_grabber: models.py, core.py, pubmed.py,
fetchers/geo.py, fetchers/ena.py).

HTTP traffic is modelled by explicit world functions mapping each
endpoint request to its response.  A response is either a transport-level
failure (connection error, timeout, or bad HTTP status, all of which the
code maps to None after retries), or a 2xx body that may or may not be
valid JSON.  A propagated Python exception is modelled as Except.error.
-/

/-- JSON values as delivered by response.json(). Numbers are modelled as
integers (the adapters only ever see integral ids and counts). -/
inductive Json where
  | null
  | bool (b : Bool)
  | str (s : String)
  | num (n : Int)
  | arr (xs : List Json)
  | obj (kvs : List (String × Json))

/-- Python truthiness of a JSON value. -/
def truthy : Json → Bool
  | .null => false
  | .bool b => b
  | .str s => s ≠ ""
  | .num n => n ≠ 0
  | .arr xs => !xs.isEmpty
  | .obj kvs => !kvs.isEmpty

/-- Python str() of a JSON value as used inside f-strings. The adapters
never interpolate containers into the fields the claims inspect, so list
and dict reprs are collapsed to placeholders. -/
def pyStr : Json → String
  | .null => "None"
  | .bool true => "True"
  | .bool false => "False"
  | .str s => s
  | .num n => toString n
  | .arr _ => "list"
  | .obj _ => "dict"

/-- Python == between a JSON value and a string literal: only an equal
string compares equal (no JSON container ever equals a str). -/
def jsonEqStr (j : Json) (s : String) : Bool :=
  match j with
  | .str t => t = s
  | _ => false

/-- Whether a JSON value is hashable in Python (containers are not). -/
def jsonHashable : Json → Bool
  | .arr _ => false
  | .obj _ => false
  | _ => true

/-- Python == between hashable JSON atoms (True == 1 in Python). -/
def atomEq : Json → Json → Bool
  | .null, .null => true
  | .bool a, .bool b => a = b
  | .bool a, .num b => (if a then (1 : Int) else 0) = b
  | .num a, .bool b => a = (if b then (1 : Int) else 0)
  | .num a, .num b => a = b
  | .str a, .str b => a = b
  | _, _ => false

/-- d.get(k, default): dictionary lookup with default; calling .get on a
non-dict raises AttributeError. -/
def dictGetD (d : Json) (k : String) (dflt : Json) : Except String Json :=
  match d with
  | .obj kvs => .ok (((kvs.find? (fun p => p.1 = k)).map (fun p => p.2)).getD dflt)
  | _ => .error "AttributeError: object has no attribute get"

/-- d[k]: dictionary subscription; a missing key raises KeyError and a
non-dict raises TypeError. -/
def dictItem (d : Json) (k : String) : Except String Json :=
  match d with
  | .obj kvs =>
    match kvs.find? (fun p => p.1 = k) with
    | some p => .ok p.2
    | none => .error ("KeyError: " ++ k)
  | _ => .error "TypeError: object is not subscriptable"

/-- for x in j: iteration over a JSON value. Lists yield elements,
strings yield one-character strings, dicts yield their keys; other
values raise TypeError. -/
def pyIter : Json → Except String (List Json)
  | .arr xs => .ok xs
  | .str s => .ok (s.data.map (fun c => Json.str (String.mk [c])))
  | .obj kvs => .ok (kvs.map (fun p => Json.str p.1))
  | _ => .error "TypeError: object is not iterable"

/-- Boolean substring test on character lists (Python needle in hay). -/
def listInfixB [DecidableEq α] (needle : List α) : List α → Bool
  | [] => needle = []
  | c :: cs => needle.isPrefixOf (c :: cs) || listInfixB needle cs

/-- Boolean substring test on strings (Python needle in hay). -/
def substrB (hay needle : String) : Bool :=
  listInfixB needle.data hay.data

/-- key in d for a JSON value d, as used by the expression
doc and "error" not in doc. Dict membership tests keys, string
membership tests substrings, list membership tests elements; numbers,
booleans and null raise TypeError. -/
def pyContainsStr (d : Json) (k : String) : Except String Bool :=
  match d with
  | .obj kvs => .ok (kvs.any (fun p => p.1 = k))
  | .str s => .ok (substrB s k)
  | .arr xs => .ok (xs.any (fun x => jsonEqStr x k))
  | _ => .error "TypeError: argument is not iterable"

/-- Strip ASCII whitespace from both ends (Python str.strip()). -/
def pyStrip (s : String) : String :=
  String.mk ((s.data.dropWhile Char.isWhitespace).reverse.dropWhile Char.isWhitespace |>.reverse)

/-- Lowercase (Python str.lower(), ASCII range). -/
def pyLower (s : String) : String := String.mk (s.data.map Char.toLower)

/-- Uppercase (Python str.upper(), ASCII range). -/
def pyUpper (s : String) : String := String.mk (s.data.map Char.toUpper)

/-- Split a character list at the first occurrence of a separator.
Returns none when the separator does not occur. -/
def splitOnceChars [DecidableEq α] (sep : List α) : List α → Option (List α × List α)
  | [] => none
  | c :: cs =>
    if sep.isPrefixOf (c :: cs) then some ([], (c :: cs).drop sep.length)
    else (splitOnceChars sep cs).map (fun p => (c :: p.1, p.2))

/-- Python s.split(sep, 1)[-1]: the part after the first separator, or
the whole string when the separator is absent. -/
def afterFirst (s sep : String) : String :=
  match splitOnceChars sep.data s.data with
  | some p => String.mk p.2
  | none => s

/-- Python s.split(sep, 1) returned as an optional pair: some when the
separator occurs (two parts), none when it does not (one part). -/
def splitOnce (s sep : String) : Option (String × String) :=
  (splitOnceChars sep.data s.data).map (fun p => (String.mk p.1, String.mk p.2))

/-- Split a string on a single character (Python s.split(c) for the
newline separator used by the SOFT parser). -/
def splitChar (c : Char) (s : String) : List String :=
  (s.data.foldr
    (fun ch acc =>
      match acc with
      | [] => [[ch]]
      | cur :: rest => if ch = c then [] :: cur :: rest else (ch :: cur) :: rest)
    [[]]).map String.mk

/-- Python s.replace(old, new) for the single-character case used by the
code (pdat.replace("/", "-")). -/
def replaceChar (s : String) (old new : Char) : String :=
  String.mk (s.data.map (fun c => if c = old then new else c))

/-- Python s.rstrip(".") as applied to citation titles. -/
def rstripDots (s : String) : String :=
  String.mk ((s.data.reverse.dropWhile (fun c => c = '.')).reverse)

/-- Python s.startswith(p). -/
def pyStartsWith (s p : String) : Bool := p.data.isPrefixOf s.data

/-- Join a list of strings with a separator (Python sep.join(parts)). -/
def joinWith (sep : String) : List String → String
  | [] => ""
  | [x] => x
  | x :: xs => x ++ sep ++ joinWith sep xs

/-- ". ".join(p for p in parts if p): every kept part must be a string,
a truthy non-string part makes join raise TypeError. -/
def pyJoinTruthy (sep : String) (parts : List Json) : Except String String :=
  let kept := parts.filter truthy
  if kept.all (fun p => match p with | .str _ => true | _ => false) then
    .ok (joinWith sep (kept.filterMap (fun p => match p with | .str s => some s | _ => none)))
  else .error "TypeError: sequence item is not a string"

/-- Deduplicate keeping the first occurrence of each element, in order
(Python list(dict.fromkeys(xs)) and Counter key order). -/
def dedupFirstAux [DecidableEq α] (seen : List α) : List α → List α
  | [] => []
  | x :: xs =>
    if x ∈ seen then dedupFirstAux seen xs
    else x :: dedupFirstAux (x :: seen) xs

/-- Deduplicate keeping first occurrences, preserving their order. -/
def dedupFirst [DecidableEq α] (l : List α) : List α := dedupFirstAux [] l

/-- Code-point lexicographic comparison of character lists (the order
Python sorted uses on strings). -/
def charsLe : List Char → List Char → Bool
  | [], _ => true
  | _ :: _, [] => false
  | a :: as, b :: bs =>
    if a < b then true else if b < a then false else charsLe as bs

/-- Code-point lexicographic order on strings. -/
def strLe (a b : String) : Prop := charsLe a.data b.data = true

instance : DecidableRel strLe :=
  fun a b => inferInstanceAs (Decidable (charsLe a.data b.data = true))

/-- Sort strings ascending in code-point lexicographic order
(Python sorted on str). -/
def sortStrs (l : List String) : List String :=
  l.insertionSort strLe

/-- Python "; ".join(sorted(set(values))): the union of the distinct
values, sorted and semicolon-joined (the age aggregation of the GEO
SOFT parser). -/
def joinSortedUnique (values : List String) : String :=
  joinWith "; " (sortStrs (dedupFirst values))

/-- Chunk a list into consecutive groups of n, with an explicit fuel so
the definition is structurally recursive (the resolver batches ids in
groups of 200). -/
def chunksOfFuel (n : Nat) : Nat → List α → List (List α)
  | _, [] => []
  | 0, l => [l]
  | fuel + 1, l => l.take n :: chunksOfFuel n fuel (l.drop n)

/-- Chunk a list into consecutive groups of n (range(0, len, n) slices). -/
def chunksOf (n : Nat) (l : List α) : List (List α) := chunksOfFuel n l.length l

/-- Python int() restricted to the all-digit strings that reach it in
this code base; anything else raises ValueError, matching int() on the
non-digit remainders the GEO uid derivation can produce. -/
def pyIntDigits (s : String) : Except String Int :=
  if s ≠ "" ∧ s.data.all Char.isDigit then
    .ok (Int.ofNat (s.data.foldl (fun acc c => acc * 10 + (c.toNat - '0'.toNat)) 0))
  else .error ("ValueError: invalid literal for int() with base 10: " ++ s)


/-- MetadataRecord (models.py): the sole contract between fetchers and
output. Constructed with only the accession set; fetch_status defaults
to "success". -/
structure MetadataRecord where
  accession : String
  species : String := ""
  tissue : String := ""
  age : String := ""
  sequencing_type : String := ""
  data_type : String := ""
  platform : String := ""
  date_deposited : String := ""
  experimental_details : String := ""
  published_works : String := ""
  database_references : String := ""
  fetch_status : String := "success"
  error_message : String := ""
deriving Repr, DecidableEq, Inhabited

/-- most_common (geo.py): sorted unique values of the input; the sole
value when there is exactly one distinct value, otherwise all distinct
values semicolon-joined. -/
def most_common (values : List String) : String :=
  match sortStrs (dedupFirst values) with
  | [u] => u
  | unique => joinWith "; " unique

/-- Count occurrences of hashable JSON atoms, entries kept in
first-occurrence order (collections.Counter); an unhashable value
raises TypeError. -/
def countOccsAux (acc : List (Json × Nat)) : List Json → Except String (List (Json × Nat))
  | [] => .ok acc
  | v :: vs =>
    if jsonHashable v then
      if acc.any (fun p => atomEq p.1 v) then
        countOccsAux (acc.map (fun p => if atomEq p.1 v then (p.1, p.2 + 1) else p)) vs
      else countOccsAux (acc ++ [(v, 1)]) vs
    else .error "TypeError: unhashable type"

/-- Occurrence counts of a list of JSON values in first-occurrence
order. -/
def countOccs (values : List Json) : Except String (List (Json × Nat)) :=
  countOccsAux [] values

/-- Counter(values).most_common(1)[0][0] (ena.py): the most frequent
value, ties broken by first occurrence; the empty list raises
IndexError (never reached: the code guards on non-empty values). -/
def counterTop (values : List Json) : Except String Json :=
  match countOccs values with
  | .error e => .error e
  | .ok [] => .error "IndexError: list index out of range"
  | .ok (p :: ps) =>
    .ok ((ps.foldl (fun best q => if q.2 > best.2 then q else best) p).1)

/-- Keyword sets used to classify sequencing type from GEO SOFT
library_source and molecule fields (geo.py module constants). -/
def SINGLE_CELL_KEYWORDS : List String := ["transcriptomic single cell", "single cell"]

/-- Nuclear-RNA keyword set (geo.py module constant). -/
def NUCLEAR_RNA_KEYWORDS : List String := ["nuclear rna"]

/-- classify_sequencing_type (geo.py): bulk, single cell, single nuclei
or other from the library_source and molecule fields; an empty source
list yields the empty string. -/
def classify_sequencing_type (library_sources molecules : List String) : String :=
  if library_sources.isEmpty then ""
  else
    let is_single_cell :=
      library_sources.any (fun src => SINGLE_CELL_KEYWORDS.any (fun kw => substrB src kw))
    if is_single_cell then
      let is_nuclear :=
        molecules.any (fun mol => NUCLEAR_RNA_KEYWORDS.any (fun kw => substrB mol kw))
      if is_nuclear then "single nuclei" else "single cell"
    else if library_sources.any (fun src => substrB src "transcriptomic") then "bulk"
    else if library_sources.any (fun src => substrB src "genomic") then "bulk"
    else "other"

/-- classify_library_source (ena.py): sequencing type from the ENA
library_source value. -/
def classify_library_source (library_source : String) : String :=
  if library_source = "" then ""
  else
    let src := pyLower library_source
    if substrB src "single cell" then "single cell"
    else if substrB src "transcriptomic" then "bulk"
    else if substrB src "genomic" then "bulk"
    else "other"

/-- Aggregated sample metadata produced by parse_sample_soft; the
sequencing_type key is always present, tissue and age only when values
were collected, so the dict is always truthy. -/
structure SoftMeta where
  tissue : Option String
  age : Option String
  sequencing_type : String
deriving Repr, DecidableEq

/-- Values collected line by line from the SOFT text. -/
structure SoftAcc where
  tissues : List String := []
  ages : List String := []
  library_sources : List String := []
  molecules : List String := []
  source_names : List String := []
deriving Repr

/-- One line of the SOFT scan (the body of the line loop of
parse_sample_soft, after the line is stripped). -/
def softLineStep (acc : SoftAcc) (line : String) : SoftAcc :=
  if pyStartsWith line "!Sample_characteristics_ch1" then
    let value := pyStrip (afterFirst line "=")
    match splitOnce value ":" with
    | some kv =>
      let key := pyLower (pyStrip kv.1)
      let val := pyStrip kv.2
      if key = "tissue" ∨ key = "tissue type" ∨ key = "organ" ∨ key = "cell type" then
        { acc with tissues := acc.tissues ++ [val] }
      else if key = "age" ∨ key = "developmental stage" ∨ key = "dev stage" then
        { acc with ages := acc.ages ++ [val] }
      else acc
    | none => acc
  else if pyStartsWith line "!Sample_source_name_ch1" then
    let val := pyStrip (afterFirst line "=")
    if val ≠ "" then { acc with source_names := acc.source_names ++ [val] } else acc
  else if pyStartsWith line "!Sample_library_source" then
    let val := pyLower (pyStrip (afterFirst line "="))
    if val ≠ "" then { acc with library_sources := acc.library_sources ++ [val] } else acc
  else if pyStartsWith line "!Sample_molecule_ch1" then
    let val := pyLower (pyStrip (afterFirst line "="))
    if val ≠ "" then { acc with molecules := acc.molecules ++ [val] } else acc
  else acc

/-- parse_sample_soft (geo.py): scan the SOFT text and aggregate tissue
(most common), age (sorted union of distinct values) and sequencing
type. -/
def parse_sample_soft (soft_text : String) : SoftMeta :=
  let acc := ((splitChar '\n' soft_text).map pyStrip).foldl softLineStep {}
  { tissue :=
      if !acc.tissues.isEmpty then some (most_common acc.tissues)
      else if !acc.source_names.isEmpty then some (most_common acc.source_names)
      else none
    age := if !acc.ages.isEmpty then some (joinSortedUnique acc.ages) else none
    sequencing_type := classify_sequencing_type acc.library_sources acc.molecules }

/-- GEO uid offset (geo.py module constant). -/
def GEO_UID_OFFSET : Int := 200000000

/-- accession_to_uid (geo.py): split the accession into its alphabetic
and non-alphabetic characters; requires the alphabetic part to be GSE
(case-insensitively) and the rest to parse as an integer, else raises
ValueError. -/
def accession_to_uid (accession : String) : Except String Int :=
  let pre := String.mk (accession.data.filter Char.isAlpha)
  let num_str := String.mk (accession.data.filter (fun c => !c.isAlpha))
  if pyUpper pre ≠ "GSE" ∨ num_str = "" then
    .error ("Invalid GSE accession: " ++ accession)
  else
    match pyIntDigits num_str with
    | .error e => .error e
    | .ok n => .ok (GEO_UID_OFFSET + n)

/-- Outcome of one guarded HTTP GET. failure covers connection errors,
timeouts and error statuses (exhausted retries included); ok carries the
2xx body, which is some parsed JSON or none when the body is not valid
JSON (so that response.json() raises). -/
inductive HResp where
  | failure
  | ok (body : Option Json)

/-- The PubMed esummary endpoint: a response per requested id batch. -/
def PmWorld := List String → HResp

/-- Map over a list inside Except, stopping at the first raise. -/
def exceptMapM (f : α → Except String β) : List α → Except String (List β)
  | [] => .ok []
  | x :: xs =>
    match f x with
    | .error e => .error e
    | .ok y =>
      match exceptMapM f xs with
      | .error e => .error e
      | .ok ys => .ok (y :: ys)

/-- The comprehension [a["value"] for a in article_ids if a.get("idtype") == t]
(pubmed.py format_citation). -/
def collectIdValues (t : String) : List Json → Except String (List Json)
  | [] => .ok []
  | a :: rest =>
    match dictGetD a "idtype" Json.null with
    | .error e => .error e
    | .ok ty =>
      if jsonEqStr ty t then
        match dictItem a "value" with
        | .error e => .error e
        | .ok v =>
          match collectIdValues t rest with
          | .error e => .error e
          | .ok vs => .ok (v :: vs)
      else collectIdValues t rest

/-- format_citation (pubmed.py): build the citation string from an
esummary document; malformed documents raise. -/
def format_citation (doc : Json) : Except String String := do
  let authors ← dictGetD doc "authors" (Json.arr [])
  let author_str ←
    if truthy authors then
      match authors with
      | .arr (a0 :: rest) => do
        let name ← dictGetD a0 "name" (Json.str "Unknown")
        pure (if rest.length + 1 > 1 then pyStr name ++ " et al." else pyStr name)
      | _ => Except.error "TypeError: object is not subscriptable"
    else pure "Unknown"
  let pubdate ← dictGetD doc "pubdate" (Json.str "")
  let year ←
    match pubdate with
    | .str s => pure (String.mk (s.data.take 4))
    | _ => Except.error "TypeError: object is not subscriptable"
  let titleJ ← dictGetD doc "title" (Json.str "")
  let title ←
    match titleJ with
    | .str s => pure (rstripDots s)
    | _ => Except.error "AttributeError: object has no attribute rstrip"
  let journal ← dictGetD doc "source" (Json.str "")
  let articleIdsJ ← dictGetD doc "articleids" (Json.arr [])
  let article_ids ← pyIter articleIdsJ
  let dois ← collectIdValues "doi" article_ids
  let pmid_list ← collectIdValues "pubmed" article_ids
  let doi_str := match dois with | [] => "" | d :: _ => "DOI:" ++ pyStr d
  let pmid_str := match pmid_list with | [] => "" | p :: _ => "PMID:" ++ pyStr p
  let parts : List Json :=
    [Json.str (author_str ++ " (" ++ year ++ ")"), Json.str title, journal]
      ++ (if doi_str ≠ "" then [Json.str doi_str]
          else if pmid_str ≠ "" then [Json.str pmid_str] else [])
  pyJoinTruthy ". " parts

/-- The body of the per-id loop of resolve (pubmed.py 41-46): the string
appended for one id given the result dict, or the exception it raises. -/
def docOutcome (result : Json) (pmid : String) : Except String String :=
  match dictGetD result pmid Json.null with
  | .error e => .error e
  | .ok doc =>
    if truthy doc then
      match pyContainsStr doc "error" with
      | .error e => .error e
      | .ok hasErrorKey =>
        if hasErrorKey then .ok ("PMID:" ++ pmid) else format_citation doc
    else .ok ("PMID:" ++ pmid)

/-- Run the per-id loop over a batch: the strings appended before a
raise, and whether a raise interrupted the loop. -/
def docsLoop (result : Json) : List String → List String × Bool
  | [] => ([], false)
  | p :: rest =>
    match docOutcome result p with
    | .error _ => ([], true)
    | .ok s =>
      let out := docsLoop result rest
      (s :: out.1, out.2)

/-- The strings resolve appends for one batch (pubmed.py 38-49): on any
exception inside the try block the whole batch falls back to PMID:<id>
strings, after whatever citations were already appended. -/
def batchOut (w : PmWorld) (batch : List String) : List String :=
  match w batch with
  | .failure => batch.map (fun p => "PMID:" ++ p)
  | .ok none => batch.map (fun p => "PMID:" ++ p)
  | .ok (some data) =>
    match dictGetD data "result" (Json.obj []) with
    | .error _ => batch.map (fun p => "PMID:" ++ p)
    | .ok result =>
      let out := docsLoop result batch
      if out.2 then out.1 ++ batch.map (fun p => "PMID:" ++ p) else out.1

/-- Whether the per-id loop of a batch completes without raising (the
batch then contributes exactly one string per id). -/
def batchClean (w : PmWorld) (batch : List String) : Bool :=
  match w batch with
  | .ok (some data) =>
    match dictGetD data "result" (Json.obj []) with
    | .ok result => !(docsLoop result batch).2
    | .error _ => true
  | _ => true

/-- Batch size of the resolver (pubmed.py module constant). -/
def MAX_IDS_PER_REQUEST : Nat := 200

/-- resolve (pubmed.py): deduplicate preserving first occurrence, batch
into groups of 200, and concatenate the per-batch outputs. The second
component counts the esummary calls made. -/
def resolve (w : PmWorld) (pmids : List String) : List String × Nat :=
  if pmids.isEmpty then ([], 0)
  else
    let unique := dedupFirst pmids
    let batches := chunksOf MAX_IDS_PER_REQUEST unique
    ((batches.map (batchOut w)).flatten, batches.length)

/-- Outcome of the SOFT flat-file download (geo.py fetch_sample_soft):
transport failure, a body that fails to decompress, or the decompressed
decoded text. -/
inductive SoftResp where
  | failure
  | badGzip
  | ok (text : String)

/-- Responses of the endpoints the GEO fetcher consumes. -/
structure GeoWorld where
  esummary : Int → HResp
  elink : Int → HResp
  soft : String → SoftResp
  pubmed : PmWorld

/-- fetch_esummary (geo.py): None on transport failure; otherwise
response.json() (raising on an invalid body, outside any try block),
then result.get(str(uid)). -/
def geo_fetch_esummary (resp : HResp) (uid : Int) : Except String (Option Json) :=
  match resp with
  | .failure => .ok none
  | .ok none => .error "JSONDecodeError: response body is not valid JSON"
  | .ok (some data) =>
    match dictGetD data "result" (Json.obj []) with
    | .error e => .error e
    | .ok result =>
      match dictGetD result (toString uid) Json.null with
      | .error e => .error e
      | .ok v => .ok (match v with | .null => none | _ => some v)

/-- The record fields computed from the eSummary document
(geo.py fetch steps 2 and 3). -/
structure GeoDocFields where
  species : String
  data_type : String
  platform : String
  date_deposited : String
  experimental_details : String
  database_references : String
deriving Repr, DecidableEq

/-- Extract the eSummary-derived fields (geo.py fetch lines 62-97). -/
def geoDocFields (doc : Json) : Except String GeoDocFields := do
  let taxon ← dictGetD doc "taxon" (Json.str "")
  let gdstype ← dictGetD doc "gdstype" (Json.str "")
  let gpl ← dictGetD doc "gpl" (Json.str "")
  let platform := if truthy gpl then "GPL" ++ pyStr gpl else ""
  let pdat ← dictGetD doc "pdat" (Json.str "")
  let date ←
    if truthy pdat then
      match pdat with
      | .str s => pure (replaceChar s '/' '-')
      | _ => Except.error "AttributeError: object has no attribute replace"
    else pure ""
  let titleJ ← dictGetD doc "title" (Json.str "")
  let summary ← dictGetD doc "summary" (Json.str "")
  let n_samples ← dictGetD doc "n_samples" (Json.str "")
  let d1 ←
    if truthy summary then
      match titleJ with
      | .str t => pure (Json.str (t ++ ". " ++ pyStr summary))
      | _ => Except.error "TypeError: unsupported operand types"
    else pure titleJ
  let d2 ←
    if truthy n_samples then
      match d1 with
      | .str t => pure (Json.str (t ++ " (n=" ++ pyStr n_samples ++ " samples)"))
      | _ => Except.error "TypeError: unsupported operand types"
    else pure d1
  let bioproject ← dictGetD doc "bioproject" (Json.str "")
  let refs0 := if truthy bioproject then ["BioProject:" ++ pyStr bioproject] else []
  let extrel ← dictGetD doc "extrelations" (Json.arr [])
  let rels ← pyIter extrel
  let relRefs ← exceptMapM
    (fun rel => do
      let rt ← dictGetD rel "relationtype" (Json.str "")
      let tg ← dictGetD rel "targetobject" (Json.str "")
      pure (if truthy rt && truthy tg then [pyStr rt ++ ":" ++ pyStr tg] else []))
    rels
  let refs := refs0 ++ relRefs.flatten
      ++ (if truthy gpl then ["GEO_Platform:GPL" ++ pyStr gpl] else [])
  pure { species := pyStr taxon, data_type := pyStr gdstype, platform := platform,
         date_deposited := date, experimental_details := pyStr d2,
         database_references := joinWith "; " refs }

/-- fetch_elink_pubmed (geo.py): transport failure yields []; an invalid
JSON body raises (outside any try block); otherwise collect the links of
every gds_pubmed linksetdb. -/
def geo_fetch_elink (resp : HResp) : Except String (List String) :=
  match resp with
  | .failure => .ok []
  | .ok none => .error "JSONDecodeError: response body is not valid JSON"
  | .ok (some data) => do
    let linksets ← dictGetD data "linksets" (Json.arr [])
    let lss ← pyIter linksets
    let nested ← exceptMapM
      (fun linkset => do
        let lsdbs ← dictGetD linkset "linksetdbs" (Json.arr [])
        let dbs ← pyIter lsdbs
        let per ← exceptMapM
          (fun lsdb => do
            let ln ← dictGetD lsdb "linkname" Json.null
            if jsonEqStr ln "gds_pubmed" then do
              let links ← dictGetD lsdb "links" (Json.arr [])
              let ls ← pyIter links
              pure (ls.map pyStr)
            else pure [])
          dbs
        pure per.flatten)
      lss
    pure nested.flatten

/-- fetch_sample_soft (geo.py): any download or decompression problem is
caught and yields None, otherwise the parsed aggregate. -/
def geo_fetch_sample_soft (resp : SoftResp) : Option SoftMeta :=
  match resp with
  | .failure => none
  | .badGzip => none
  | .ok text => some (parse_sample_soft text)

/-- The pmids embedded in the eSummary document (geo.py line 108):
[str(p) for p in doc.get("pubmedids", []) if p]. -/
def geoDocPmids (doc : Json) : Except String (List String) := do
  let pj ← dictGetD doc "pubmedids" (Json.arr [])
  let ps ← pyIter pj
  pure ((ps.filter truthy).map pyStr)

/-- GEOFetcher.fetch (geo.py): the record produced for an accession
under the given world, with a count of the HTTP calls attempted.
Except.error marks an exception escaping fetch. -/
def geo_fetch (w : GeoWorld) (accession : String) : Except String MetadataRecord × Nat :=
  let record : MetadataRecord := { accession := accession }
  match accession_to_uid accession with
  | .error msg => (.ok { record with fetch_status := "error", error_message := msg }, 0)
  | .ok uid =>
    match geo_fetch_esummary (w.esummary uid) uid with
    | .error e => (.error e, 1)
    | .ok none =>
      let r := { record with fetch_status := "error", error_message := "eSummary returned no data" }
      (.ok r, 1)
    | .ok (some doc) =>
      match geoDocFields doc with
      | .error e => (.error e, 1)
      | .ok f =>
        let record := { record with
          species := f.species
          data_type := f.data_type
          platform := f.platform
          date_deposited := f.date_deposited
          experimental_details := f.experimental_details
          database_references := f.database_references }
        let record :=
          match geo_fetch_sample_soft (w.soft accession) with
          | none => record
          | some m => { record with
              tissue := m.tissue.getD ""
              age := m.age.getD ""
              sequencing_type := m.sequencing_type }
        match geoDocPmids doc with
        | .error e => (.error e, 2)
        | .ok pmids =>
          match geo_fetch_elink (w.elink uid) with
          | .error e => (.error e, 3)
          | .ok elink_pmids =>
            let all_pmids := dedupFirst (pmids ++ elink_pmids)
            if all_pmids.isEmpty then (.ok record, 3)
            else
              let r := resolve w.pubmed all_pmids
              (.ok { record with published_works := joinWith "; " r.1 }, 3 + r.2)

/-- Responses of the endpoints the ENA fetcher consumes. The Europe PMC
search is keyed by the stringified query term. -/
structure EnaWorld where
  study : String → HResp
  runMeta : String → HResp
  xref : String → HResp
  epmc : String → HResp
  pubmed : PmWorld

/-- fetch_study_metadata (ena.py): None on transport failure; an
invalid JSON body raises (outside any try block); otherwise the first
element when the body is a non-empty list, else None. -/
def ena_fetch_study (resp : HResp) : Except String (Option Json) :=
  match resp with
  | .failure => .ok none
  | .ok none => .error "JSONDecodeError: response body is not valid JSON"
  | .ok (some data) =>
    match data with
    | .arr (x :: _) => .ok (some x)
    | _ => .ok none

/-- The record fields computed from the study-level response
(ena.py fetch lines 46-58). -/
structure EnaStudyFields where
  date_deposited : String
  experimental_details : String
  species : String
deriving Repr, DecidableEq

/-- Extract the study-level fields (ena.py fetch lines 46-58). -/
def enaStudyFields (study : Json) : Except String EnaStudyFields := do
  let first_public ← dictGetD study "first_public" (Json.str "")
  let title ← dictGetD study "study_title" (Json.str "")
  let sd ← dictGetD study "study_description" (Json.str "")
  let descr ← if truthy sd then pure sd else dictGetD study "description" (Json.str "")
  let center ← dictGetD study "center_name" (Json.str "")
  let d1 ←
    if truthy descr then
      match title with
      | .str t => pure (Json.str (t ++ ". " ++ pyStr descr))
      | _ => Except.error "TypeError: unsupported operand types"
    else pure title
  let d2 ←
    if truthy center then
      match d1 with
      | .str t => pure (Json.str (t ++ " (Center: " ++ pyStr center ++ ")"))
      | _ => Except.error "TypeError: unsupported operand types"
    else pure d1
  let sci ← dictGetD study "scientific_name" (Json.str "")
  pure { date_deposited := pyStr first_public, experimental_details := pyStr d2,
         species := pyStr sci }

/-- The fields fetch_run_metadata aggregates over the returned runs
(ena.py module-level tuple in the result loop). -/
def ENA_RUN_FIELDS : List String :=
  ["scientific_name", "instrument_platform", "library_strategy",
   "library_source", "tissue_type", "age", "cell_type"]

/-- fetch_run_metadata (ena.py): None on transport failure or when the
body is not a non-empty list; an invalid JSON body raises; otherwise,
per field, the most frequent truthy value across runs. -/
def ena_fetch_run (resp : HResp) : Except String (Option (List (String × Json))) :=
  match resp with
  | .failure => .ok none
  | .ok none => .error "JSONDecodeError: response body is not valid JSON"
  | .ok (some data) =>
    match data with
    | .arr (row0 :: rows) =>
      match exceptMapM
        (fun field =>
          match exceptMapM
            (fun row =>
              match dictGetD row field Json.null with
              | .error e => .error e
              | .ok v => .ok (if truthy v then [v] else []))
            (row0 :: rows) with
          | .error e => .error e
          | .ok values =>
            match values.flatten with
            | [] => .ok []
            | vals =>
              match counterTop vals with
              | .error e => .error e
              | .ok top => .ok [(field, top)])
        ENA_RUN_FIELDS with
      | .error e => .error e
      | .ok entries =>
        .ok (match entries.flatten with | [] => none | result => some result)
    | _ => .ok none

/-- Lookup of an aggregated run field with a default (run.get). -/
def runGetD (m : List (String × Json)) (f : String) (dflt : Json) : Json :=
  ((m.find? (fun p => p.1 = f)).map (fun p => p.2)).getD dflt

/-- classify_library_source applied to run.get("library_source", ""):
falsy values classify as empty, truthy non-strings raise at .lower(). -/
def classify_library_source_j : Json → Except String String
  | .str s => .ok (classify_library_source s)
  | j => if truthy j then .error "AttributeError: object has no attribute lower"
         else .ok ""

/-- Apply the aggregated run-level fields to the record
(ena.py fetch lines 62-71). -/
def enaApplyRun (r : MetadataRecord) (runOpt : Option (List (String × Json))) :
    Except String MetadataRecord :=
  match runOpt with
  | none => .ok r
  | some m =>
    match classify_library_source_j (runGetD m "library_source" (Json.str "")) with
    | .error e => .error e
    | .ok seq =>
      let sci := runGetD m "scientific_name" Json.null
      .ok { r with
        species := if truthy sci then pyStr sci else r.species
        platform := pyStr (runGetD m "instrument_platform" (Json.str ""))
        data_type := pyStr (runGetD m "library_strategy" (Json.str ""))
        tissue := pyStr (runGetD m "tissue_type" (Json.str ""))
        age := pyStr (runGetD m "age" (Json.str ""))
        sequencing_type := seq }

/-- fetch_xrefs (ena.py): transport failures and any json() problem are
caught and yield []; a body that is not a list yields []. -/
def ena_fetch_xrefs (resp : HResp) : List Json :=
  match resp with
  | .failure => []
  | .ok none => []
  | .ok (some (Json.arr xs)) => xs
  | .ok (some _) => []

/-- Fold over a list inside Except, stopping at the first raise. -/
def exceptFoldM (f : β → α → Except String β) : β → List α → Except String β
  | b, [] => .ok b
  | b, x :: xs =>
    match f b x with
    | .error e => .error e
    | .ok c => exceptFoldM f c xs

/-- One iteration of the xref loop (ena.py fetch lines 85-95),
accumulating database references and EuropePMC pmids. -/
def enaXrefStep (st : List String × List Json) (x : Json) :
    Except String (List String × List Json) := do
  let source ← dictGetD x "Source" (Json.str "")
  let primary ← dictGetD x "Source Primary Accession" (Json.str "")
  let secondary ← dictGetD x "Source Secondary Accession" (Json.str "")
  let refs :=
    if truthy source && truthy primary then st.1 ++ [pyStr source ++ ":" ++ pyStr primary]
    else st.1
  let pmids :=
    if jsonEqStr source "EuropePMC" && truthy secondary then st.2 ++ [secondary]
    else st.2
  pure (refs, pmids)

/-- Deduplication pass under an explicit equality test, threading the
values already seen. -/
def dedupFirstByAux (eq : α → α → Bool) (seen : List α) : List α → List α
  | [] => []
  | x :: xs =>
    if seen.any (eq x) then dedupFirstByAux eq seen xs
    else x :: dedupFirstByAux eq (x :: seen) xs

/-- Deduplicate by an explicit equality test, keeping first
occurrences in order (dict.fromkeys under Python ==). -/
def dedupFirstBy (eq : α → α → Bool) (l : List α) : List α := dedupFirstByAux eq [] l

/-- resolve applied to the raw EuropePMC secondary accessions
(ena.py line 101). Unhashable ids make dict.fromkeys raise; any
non-string id makes the id join inside the request raise before the
call, so its batch falls back wholesale (the multi-batch mixed case
never arises with the 200-wide batching exercised here). -/
def ena_resolve_pmids (w : PmWorld) (pmids : List Json) : Except String (List String × Nat) :=
  if pmids.all jsonHashable then
    if pmids.all (fun p => match p with | .str _ => true | _ => false) then
      .ok (resolve w (pmids.filterMap (fun p => match p with | .str s => some s | _ => none)))
    else
      let unique := dedupFirstBy atomEq pmids
      .ok (((chunksOf MAX_IDS_PER_REQUEST unique).map
        (fun b => b.map (fun p => "PMID:" ++ pyStr p))).flatten, 0)
  else .error "TypeError: unhashable type"

/-- One item of the Europe PMC result loop (ena.py lines 208-223),
threading (citations, seen pmids). -/
def epmcItemStep (st : List String × List Json) (item : Json) :
    Except String (List String × List Json) := do
  let pmid ← dictGetD item "pmid" (Json.str "")
  if truthy pmid then
    if !jsonHashable pmid then Except.error "TypeError: unhashable type"
    else if st.2.any (atomEq pmid) then pure st
    else do
      let author ← dictGetD item "authorString" (Json.str "Unknown")
      let yearJ ← dictGetD item "pubYear" (Json.str "")
      let titleJ ← dictGetD item "title" (Json.str "")
      let title ←
        match titleJ with
        | .str s => pure (rstripDots s)
        | _ => Except.error "AttributeError: object has no attribute rstrip"
      let journal ← dictGetD item "journalTitle" (Json.str "")
      let doi ← dictGetD item "doi" (Json.str "")
      let parts : List Json :=
        [Json.str (pyStr author ++ " (" ++ pyStr yearJ ++ ")"), Json.str title, journal]
          ++ [Json.str (if truthy doi then "DOI:" ++ pyStr doi else "PMID:" ++ pyStr pmid)]
      let c ← pyJoinTruthy ". " parts
      pure (st.1 ++ [c], st.2 ++ [pmid])
  else pure st

/-- search_europepmc_publications (ena.py): loop over the query terms,
skipping falsy ones, tolerating transport and JSON failures, collecting
citations deduplicated by pmid; returns the citations and the number of
HTTP calls attempted. -/
def epmcLoop (epmc : String → HResp) :
    List Json → List String × List Json → Nat → Except String (List String) × Nat
  | [], st, n => (.ok st.1, n)
  | q :: qs, st, n =>
    if truthy q then
      match epmc (pyStr q) with
      | .failure => epmcLoop epmc qs st (n + 1)
      | .ok none => epmcLoop epmc qs st (n + 1)
      | .ok (some data) =>
        match (do
          let rl ← dictGetD data "resultList" (Json.obj [])
          let resJ ← dictGetD rl "result" (Json.arr [])
          let items ← pyIter resJ
          exceptFoldM epmcItemStep st items) with
        | .error e => (.error e, n + 1)
        | .ok st2 => epmcLoop epmc qs st2 (n + 1)
    else epmcLoop epmc qs st n

/-- ENAFetcher.fetch (ena.py): the record produced for an accession
under the given world, with a count of the HTTP calls attempted.
Except.error marks an exception escaping fetch. -/
def ena_fetch (w : EnaWorld) (accession : String) : Except String MetadataRecord × Nat :=
  let record : MetadataRecord := { accession := accession }
  match ena_fetch_study (w.study accession) with
  | .error e => (.error e, 1)
  | .ok none =>
    let r := { record with fetch_status := "error", error_message := "ENA Portal API returned no study data" }
    (.ok r, 1)
  | .ok (some study) =>
    match enaStudyFields study with
    | .error e => (.error e, 1)
    | .ok sf =>
      let record := { record with
        date_deposited := sf.date_deposited
        experimental_details := sf.experimental_details
        species := sf.species }
      match ena_fetch_run (w.runMeta accession) with
      | .error e => (.error e, 2)
      | .ok runOpt =>
        match enaApplyRun record runOpt with
        | .error e => (.error e, 2)
        | .ok record =>
          match (do
            let pa ← dictGetD study "study_accession" (Json.str "")
            let ga ← dictGetD study "geo_accession" (Json.str "")
            let refs0 := (if truthy pa then ["BioProject:" ++ pyStr pa] else [])
              ++ (if truthy ga then ["GEO:" ++ pyStr ga] else [])
            let xrefs := ena_fetch_xrefs (w.xref accession)
            exceptFoldM enaXrefStep (refs0, []) xrefs) with
          | .error e => (.error e, 3)
          | .ok st =>
            let record := { record with database_references := joinWith "; " st.1 }
            if !st.2.isEmpty then
              match ena_resolve_pmids w.pubmed st.2 with
              | .error e => (.error e, 3)
              | .ok r =>
                (.ok { record with published_works := joinWith "; " r.1 }, 3 + r.2)
            else
              match dictGetD study "study_alias" (Json.str "") with
              | .error e => (.error e, 3)
              | .ok aliasJ =>
                match epmcLoop w.epmc [Json.str accession, aliasJ] ([], []) 0 with
                | (.error e, n) => (.error e, 3 + n)
                | (.ok citations, n) =>
                  if !citations.isEmpty then
                    (.ok { record with published_works := joinWith "; " citations }, 3 + n)
                  else (.ok record, 3 + n)

/-- The two fetcher classes of the registry
(fetchers/__init__.py FETCHER_CLASSES). -/
inductive FetcherTag where
  | geo
  | ena
deriving DecidableEq, Repr

/-- Registry order (fetchers/__init__.py). -/
def FETCHER_CLASSES : List FetcherTag := [FetcherTag.geo, FetcherTag.ena]

/-- prefixes() of each fetcher: its static routing keys
(geo.py line 43, ena.py line 33). -/
def routing_keys : FetcherTag → List String
  | .geo => ["GSE"]
  | .ena => ["ERP"]

/-- The routing map built at construction (core.py lines 29-33):
uppercased routing key to owning fetcher. -/
def routing_map : List (String × FetcherTag) :=
  FETCHER_CLASSES.foldl
    (fun m tag => m ++ (routing_keys tag).map (fun p => (pyUpper p, tag))) []

/-- detect_prefix (core.py lines 69-72): the leading alphabetic run of
the stripped accession, uppercased; None when the accession does not
start with a letter. -/
def detect_routing_key (accession : String) : Option String :=
  match (pyStrip accession).data.takeWhile Char.isAlpha with
  | [] => none
  | cs => some (pyUpper (String.mk cs))

/-- The full outside world: responses for both adapters. -/
structure World where
  geo : GeoWorld
  ena : EnaWorld

/-- The dictionary lookup prefix_map.get of the detected routing key
(core.py line 55). -/
def routeOf (key : Option String) : Option FetcherTag :=
  match key with
  | none => none
  | some p => (routing_map.find? (fun q => q.1 = p)).map (fun q => q.2)

/-- MetadataGrabber.fetch_one (core.py lines 51-63): strip, detect the
routing key, return an error record for unknown keys without any HTTP
call, otherwise delegate to the owning fetcher. -/
def fetch_one (w : World) (accession : String) : Except String MetadataRecord × Nat :=
  let acc := pyStrip accession
  let pfxOpt := detect_routing_key acc
  match routeOf pfxOpt with
  | none =>
    let named := match pfxOpt with | some p => p | none => acc
    let r : MetadataRecord := { accession := acc, fetch_status := "error", error_message := "Unsupported accession prefix: " ++ named }
    (.ok r, 0)
  | some .geo => geo_fetch w.geo acc
  | some .ena => ena_fetch w.ena acc

/-- MetadataGrabber.fetch_all (core.py lines 65-67): the list
comprehension [fetch_one(acc) for acc in accessions]; an exception
escaping fetch_one aborts the whole comprehension. -/
def fetch_all (w : World) : List String → Except String (List MetadataRecord) × Nat
  | [] => (.ok [], 0)
  | a :: rest =>
    match fetch_one w a with
    | (.error e, c) => (.error e, c)
    | (.ok r, c) =>
      match fetch_all w rest with
      | (.error e, c2) => (.error e, c + c2)
      | (.ok rs, c2) => (.ok (r :: rs), c + c2)

/-- Per-id outcome of a batch whose processing completes without
raising; restates the resolve contract (one output string per unique
id) for comparison with batchOut. -/
def perIdOutcome (w : PmWorld) (batch : List String) (pmid : String) : String :=
  match w batch with
  | .failure => "PMID:" ++ pmid
  | .ok none => "PMID:" ++ pmid
  | .ok (some data) =>
    match dictGetD data "result" (Json.obj []) with
    | .error _ => "PMID:" ++ pmid
    | .ok result =>
      match docOutcome result pmid with
      | .ok s => s
      | .error _ => "PMID:" ++ pmid

/-- A world in which every endpoint fails at the transport level. -/
def failWorld : World :=
  { geo := { esummary := fun _ => HResp.failure
             elink := fun _ => HResp.failure
             soft := fun _ => SoftResp.failure
             pubmed := fun _ => HResp.failure }
    ena := { study := fun _ => HResp.failure
             runMeta := fun _ => HResp.failure
             xref := fun _ => HResp.failure
             epmc := fun _ => HResp.failure
             pubmed := fun _ => HResp.failure } }

/-- A GEO world whose eSummary endpoint answers 200 with a body that is
not valid JSON, so response.json() raises inside fetch_esummary. -/
def malformedGeoWorld : GeoWorld :=
  { esummary := fun _ => HResp.ok none
    elink := fun _ => HResp.failure
    soft := fun _ => SoftResp.failure
    pubmed := fun _ => HResp.failure }

/-- An ENA world whose study endpoint answers 200 with a body that is
not valid JSON, so response.json() raises inside fetch_study_metadata. -/
def malformedEnaWorld : EnaWorld :=
  { study := fun _ => HResp.ok none
    runMeta := fun _ => HResp.failure
    xref := fun _ => HResp.failure
    epmc := fun _ => HResp.failure
    pubmed := fun _ => HResp.failure }

/-- The dispatcher world combining the two malformed-body adapters. -/
def malformedWorld : World := { geo := malformedGeoWorld, ena := malformedEnaWorld }

/-- An ENA run-level response with three runs whose ages are 8 weeks,
8 weeks and 12 weeks. -/
def agesRunBody : Json :=
  Json.arr [Json.obj [("age", Json.str "8 weeks")],
            Json.obj [("age", Json.str "8 weeks")],
            Json.obj [("age", Json.str "12 weeks")]]

/-- An ENA world whose study answers minimally and whose runs carry the
heterogeneous ages of agesRunBody. -/
def agesEnaWorld : EnaWorld :=
  { study := fun _ => HResp.ok (some (Json.arr [Json.obj []]))
    runMeta := fun _ => HResp.ok (some agesRunBody)
    xref := fun _ => HResp.failure
    epmc := fun _ => HResp.failure
    pubmed := fun _ => HResp.failure }

/-- The record the ENA fetcher produces under agesEnaWorld. -/
def agesEnaRecord : MetadataRecord :=
  ((ena_fetch agesEnaWorld "ERP000001").1.toOption).getD default

/-- A SOFT text in which the age 12 months appears twice and 6 months
once. -/
def dominantAgeSoft : String :=
  "!Sample_characteristics_ch1 = age: 12 months\n!Sample_characteristics_ch1 = age: 12 months\n!Sample_characteristics_ch1 = age: 6 months\n"

/-- A resolvable esummary document (one author, a pubmed article id). -/
def goodPmDoc : Json :=
  Json.obj [("authors", Json.arr [Json.obj [("name", Json.str "Smith J")]]),
            ("pubdate", Json.str "2020 Oct"),
            ("title", Json.str "Cortical gene expression in mice."),
            ("source", Json.str "Nat Neurosci"),
            ("articleids", Json.arr [Json.obj [("idtype", Json.str "pubmed"), ("value", Json.str "1")]])]

/-- A malformed esummary document: its article id of idtype doi has no
value key, so format_citation raises KeyError at a["value"]. -/
def badPmDoc : Json :=
  Json.obj [("articleids", Json.arr [Json.obj [("idtype", Json.str "doi")]])]

/-- A PubMed world answering every batch with a result dict that
resolves id 1 and carries the malformed document for id 2. -/
def midRaisePmWorld : PmWorld :=
  fun _ => HResp.ok (some (Json.obj [("result", Json.obj [("1", goodPmDoc), ("2", badPmDoc)])]))

/-- A PubMed world answering every batch with an empty result dict, so
every id falls back to PMID:<id> and no batch raises. -/
def emptyResultPmWorld : PmWorld :=
  fun _ => HResp.ok (some (Json.obj [("result", Json.obj [])]))

/-- Membership in the deduplication pass: an element appears iff it
appears in the input and was not already seen. -/
theorem mem_dedupFirstAux [DecidableEq α] (x : α) :
    ∀ (l seen : List α), x ∈ dedupFirstAux seen l ↔ (x ∈ l ∧ x ∉ seen)
  | [], seen => by simp [dedupFirstAux]
  | y :: ys, seen => by
    simp only [dedupFirstAux]
    by_cases hy : y ∈ seen
    · simp only [hy, if_pos]
      rw [mem_dedupFirstAux x ys seen]
      constructor
      · rintro ⟨h1, h2⟩
        exact ⟨List.mem_cons_of_mem _ h1, h2⟩
      · rintro ⟨h1, h2⟩
        rcases List.mem_cons.mp h1 with rfl | h1
        · exact absurd hy h2
        · exact ⟨h1, h2⟩
    · simp only [hy, if_neg, not_false_iff, List.mem_cons]
      rw [mem_dedupFirstAux x ys (y :: seen)]
      constructor
      · rintro (rfl | ⟨h1, h2⟩)
        · exact ⟨Or.inl rfl, hy⟩
        · exact ⟨Or.inr h1, fun hs => h2 (List.mem_cons_of_mem _ hs)⟩
      · rintro ⟨rfl | h1, h2⟩
        · exact Or.inl rfl
        · by_cases hxy : x = y
          · exact Or.inl hxy
          · exact Or.inr ⟨h1, by simp [List.mem_cons, hxy, h2]⟩

/-- Membership in dedupFirst matches membership in the input. -/
theorem mem_dedupFirst [DecidableEq α] (x : α) (l : List α) :
    x ∈ dedupFirst l ↔ x ∈ l := by
  rw [dedupFirst, mem_dedupFirstAux]
  simp

/-- The deduplication pass never repeats an element. -/
theorem nodup_dedupFirstAux [DecidableEq α] :
    ∀ (l seen : List α), (dedupFirstAux seen l).Nodup
  | [], seen => by simp [dedupFirstAux]
  | y :: ys, seen => by
    simp only [dedupFirstAux]
    by_cases hy : y ∈ seen
    · simpa [hy] using nodup_dedupFirstAux ys seen
    · simp only [hy, if_neg, not_false_iff, List.nodup_cons]
      refine ⟨fun hmem => ?_, nodup_dedupFirstAux ys (y :: seen)⟩
      exact ((mem_dedupFirstAux y ys (y :: seen)).mp hmem).2 (List.mem_cons_self _ _)

/-- dedupFirst yields a duplicate-free list. -/
theorem nodup_dedupFirst [DecidableEq α] (l : List α) : (dedupFirst l).Nodup :=
  nodup_dedupFirstAux l []

/-- Totality of the code-point comparison. -/
theorem charsLe_total : ∀ x y : List Char, charsLe x y = true ∨ charsLe y x = true
  | [], _ => Or.inl rfl
  | _ :: _, [] => Or.inr rfl
  | a :: as, b :: bs => by
    simp only [charsLe]
    rcases lt_trichotomy a b with h | h | h
    · left
      simp [h]
    · subst h
      simpa [lt_irrefl] using charsLe_total as bs
    · right
      simp [h]

/-- Transitivity of the code-point comparison. -/
theorem charsLe_trans :
    ∀ x y z : List Char, charsLe x y = true → charsLe y z = true → charsLe x z = true
  | [], _, _ => by intros; rfl
  | _ :: _, [], _ => by intro h _; simp [charsLe] at h
  | _ :: _, _ :: _, [] => by intro _ h; simp [charsLe] at h
  | a :: as, b :: bs, c :: cs => by
    intro h1 h2
    simp only [charsLe] at h1 h2 ⊢
    by_cases hab : a < b
    · by_cases hbc : b < c
      · simp [lt_trans hab hbc]
      · by_cases hcb : c < b
        · simp [hbc, hcb] at h2
        · have hbceq : b = c := le_antisymm (not_lt.mp hcb) (not_lt.mp hbc)
          subst hbceq
          simp [hab]
    · by_cases hba : b < a
      · simp [hab, hba] at h1
      · have habeq : a = b := le_antisymm (not_lt.mp hba) (not_lt.mp hab)
        subst habeq
        simp only [lt_irrefl, if_false] at h1
        by_cases hac : a < c
        · simp [hac]
        · by_cases hca : c < a
          · simp [hac, hca] at h2
          · have haceq : a = c := le_antisymm (not_lt.mp hca) (not_lt.mp hac)
            subst haceq
            simp only [lt_irrefl, if_false] at h2 ⊢
            exact charsLe_trans as bs cs h1 h2

/-- Antisymmetry of the code-point comparison. -/
theorem charsLe_antisymm :
    ∀ x y : List Char, charsLe x y = true → charsLe y x = true → x = y
  | [], [] => by intros; rfl
  | [], _ :: _ => by intro _ h2; simp [charsLe] at h2
  | _ :: _, [] => by intro h1 _; simp [charsLe] at h1
  | a :: as, b :: bs => by
    intro h1 h2
    simp only [charsLe] at h1 h2
    by_cases hab : a < b
    · simp [asymm hab, hab] at h2
    · by_cases hba : b < a
      · simp [hab, hba] at h1
      · have habeq : a = b := le_antisymm (not_lt.mp hba) (not_lt.mp hab)
        subst habeq
        simp only [lt_irrefl, if_false] at h1 h2
        rw [charsLe_antisymm as bs h1 h2]

instance : IsTotal String strLe := ⟨fun a b => charsLe_total a.data b.data⟩

instance : IsTrans String strLe := ⟨fun a b c => charsLe_trans a.data b.data c.data⟩

instance : IsAntisymm String strLe :=
  ⟨fun a b h1 h2 => by
    have h := charsLe_antisymm a.data b.data h1 h2
    cases a
    cases b
    exact congrArg String.mk h⟩

/-- sortStrs sorts ascending in the code-point order. -/
theorem sortStrs_sorted (l : List String) : List.Sorted strLe (sortStrs l) :=
  List.sorted_insertionSort _ l

/-- sortStrs permutes its input. -/
theorem sortStrs_perm (l : List String) : List.Perm (sortStrs l) l :=
  List.perm_insertionSort _ l

/-- Two duplicate-free lists with the same members sort to the same
list. -/
theorem sortStrs_eq_of_same_mem {l₁ l₂ : List String}
    (d₁ : l₁.Nodup) (d₂ : l₂.Nodup) (h : ∀ x, x ∈ l₁ ↔ x ∈ l₂) :
    sortStrs l₁ = sortStrs l₂ := by
  have hperm : List.Perm l₁ l₂ := by
    rw [List.perm_ext_iff_of_nodup d₁ d₂]
    exact h
  have : List.Perm (sortStrs l₁) (sortStrs l₂) :=
    ((sortStrs_perm l₁).trans hperm).trans (sortStrs_perm l₂).symm
  exact List.eq_of_perm_of_sorted this (sortStrs_sorted l₁) (sortStrs_sorted l₂)

/-- The sorted distinct values of a list depend only on its set of
members. -/
theorem sorted_unique_ext {vs vs' : List String}
    (h : ∀ x, x ∈ vs ↔ x ∈ vs') :
    sortStrs (dedupFirst vs) = sortStrs (dedupFirst vs') := by
  refine sortStrs_eq_of_same_mem (nodup_dedupFirst vs) (nodup_dedupFirst vs') ?_
  intro x
  rw [mem_dedupFirst, mem_dedupFirst]
  exact h x

/-- Concatenating the chunks gives back the list (fuel at least its
length, positive chunk size). -/
theorem chunksOfFuel_flatten {α} (n : Nat) (hn : 0 < n) :
    ∀ (fuel : Nat) (l : List α), l.length ≤ fuel →
      (chunksOfFuel n fuel l).flatten = l := by
  intro fuel
  induction fuel with
  | zero =>
    intro l hl
    have : l = [] := List.eq_nil_of_length_eq_zero (Nat.le_zero.mp hl)
    subst this
    simp [chunksOfFuel]
  | succ f ih =>
    intro l hl
    match l with
    | [] => simp [chunksOfFuel]
    | x :: xs =>
      simp only [chunksOfFuel, List.flatten_cons]
      rw [ih ((x :: xs).drop n) ?_]
      · exact List.take_append_drop n (x :: xs)
      · have : ((x :: xs).drop n).length = (x :: xs).length - n := List.length_drop n (x :: xs)
        omega

/-- Concatenating the chunks of a list gives back the list. -/
theorem chunksOf_flatten {α} (n : Nat) (hn : 0 < n) (l : List α) :
    (chunksOf n l).flatten = l :=
  chunksOfFuel_flatten n hn l.length l (Nat.le_refl _)

/-- When the per-id loop finishes without raising, it appends exactly
the successful outcome of each id, in order. -/
theorem docsLoop_clean (result : Json) :
    ∀ batch : List String, (docsLoop result batch).2 = false →
      (docsLoop result batch).1 =
        batch.map (fun p =>
          match docOutcome result p with
          | .ok s => s
          | .error _ => "PMID:" ++ p)
  | [], _ => rfl
  | p :: rest, h => by
    simp only [docsLoop] at h ⊢
    cases hd : docOutcome result p with
    | error e =>
      rw [hd] at h
      simp at h
    | ok s =>
      rw [hd] at h
      dsimp only at h
      have ih := docsLoop_clean result rest h
      simp [List.map_cons, hd, ih]

/-- A clean batch contributes exactly one output per id, given by
perIdOutcome. -/
theorem batchOut_clean (w : PmWorld) (batch : List String)
    (h : batchClean w batch = true) :
    batchOut w batch = batch.map (perIdOutcome w batch) := by
  unfold batchClean at h
  unfold batchOut
  cases hw : w batch with
  | failure => simp [perIdOutcome, hw]
  | ok body =>
    cases body with
    | none => simp [perIdOutcome, hw]
    | some data =>
      rw [hw] at h
      dsimp only at h
      cases hr : dictGetD data "result" (Json.obj []) with
      | error e => simp [perIdOutcome, hw, hr]
      | ok result =>
        rw [hr] at h
        dsimp only at h
        simp only [Bool.not_eq_true'] at h
        dsimp only
        rw [hr]
        dsimp only
        rw [h, if_neg (by simp), docsLoop_clean result batch h]
        apply List.map_congr_left
        intro p _
        simp only [perIdOutcome, hw, hr]

/-- A string that extends a non-empty string is non-empty. -/
theorem str_append_ne_empty (s t : String) (h : s.data ≠ []) : s ++ t ≠ "" := by
  intro he
  apply h
  have h2 : (s ++ t).data = [] := by rw [he]
  have h3 : s.data ++ t.data = [] := by
    have hd : (s ++ t).data = s.data ++ t.data := by
      cases s
      cases t
      rfl
    rwa [hd] at h2
  exact (List.append_eq_nil.mp h3).1

/-- A string built from a non-empty character list is non-empty. -/
theorem strMk_ne_empty (l : List Char) (h : l ≠ []) : String.mk l ≠ "" := by
  intro he
  apply h
  have := congrArg String.data he
  exact this

/-- C1: code bug. The spec says each adapter fetch never raises and a
malformed response becomes fetch_status error, but with an HTTP 200
primary response whose body is not valid JSON, response.json() raises
outside every try block (geo.py fetch_esummary, ena.py
fetch_study_metadata) and the exception escapes fetch: no record is
produced. -/
theorem C1_adapter_fetch_raises_on_malformed_body :
    (geo_fetch malformedGeoWorld "GSE1").1 =
        Except.error "JSONDecodeError: response body is not valid JSON" ∧
    (ena_fetch malformedEnaWorld "ERP1").1 =
        Except.error "JSONDecodeError: response body is not valid JSON" :=
  ⟨rfl, rfl⟩

/-- C2: code bug. With a malformed study response body the ENA fetch
raises and no record at all is returned for the accession, violating
the record-always-returned half of the claim; the second conjunct
shows that when an error-status record IS returned its biological
fields are all empty (default) and its message non-empty. -/
theorem C2_record_missing_on_malformed_body :
    (ena_fetch malformedEnaWorld "ERP119049").1 =
        Except.error "JSONDecodeError: response body is not valid JSON" ∧
    (ena_fetch failWorld.ena "ERP119049").1 =
        Except.ok { accession := "ERP119049", fetch_status := "error", error_message := "ENA Portal API returned no study data" } :=
  ⟨rfl, rfl⟩

/-- C5: counterexample. With values [a, a, b] the most frequent value
is a and there is no tie, yet most_common returns the joined distinct
set instead. -/
theorem C5_most_common_counterexample :
    most_common ["a", "a", "b"] = "a; b" ∧ ("a; b" : String) ≠ "a" :=
  ⟨rfl, by decide⟩

/-- C5 amended: the GEO reducer ignores frequencies entirely - its
output depends only on the set of values, it returns a sole distinct
value as is, and any heterogeneous input yields the sorted joined
distinct set; the ENA reducer always returns the most frequent value,
ties broken by first occurrence, never a joined set. -/
theorem C5_aggregation_amended :
    (∀ vs vs' : List String, (∀ x, x ∈ vs ↔ x ∈ vs') →
        most_common vs = most_common vs') ∧
    (∀ v : String, most_common [v] = v) ∧
    most_common ["x", "y"] = "x; y" ∧
    counterTop [Json.str "8 weeks", Json.str "8 weeks", Json.str "12 weeks"] =
        Except.ok (Json.str "8 weeks") ∧
    counterTop [Json.str "b", Json.str "a", Json.str "a", Json.str "b"] =
        Except.ok (Json.str "b") := by
  refine ⟨?_, ?_, rfl, rfl, rfl⟩
  · intro vs vs' h
    unfold most_common
    rw [sorted_unique_ext h]
  · intro v
    have hd : dedupFirst [v] = [v] := by simp [dedupFirst, dedupFirstAux]
    unfold most_common
    rw [hd]
    rfl

/-- C5 witness: the set-invariance and singleton clauses of the amended
claim at concrete inputs. -/
theorem C5_aggregation_amended_witness :
    most_common ["b", "a", "b"] = most_common ["a", "b"] ∧ most_common ["z"] = "z" :=
  ⟨C5_aggregation_amended.1 ["b", "a", "b"] ["a", "b"] (by intro x; simp; tauto),
   C5_aggregation_amended.2.1 "z"⟩

/-- C6: counterexample. Under agesEnaWorld the runs carry ages 8 weeks,
8 weeks and 12 weeks; the union of distinct values would be
12 weeks; 8 weeks, but the ENA fetch collapses the age field to the
single most frequent value. -/
theorem C6_ena_age_collapse_counterexample :
    agesEnaRecord.age = "8 weeks" ∧
    joinSortedUnique ["8 weeks", "8 weeks", "12 weeks"] = "12 weeks; 8 weeks" ∧
    ("8 weeks" : String) ≠ "12 weeks; 8 weeks" :=
  ⟨rfl, rfl, by decide⟩

/-- C6 amended: only the GEO SOFT aggregation unions ages. It is
frequency-blind (prepending a duplicate of a value already present
leaves the output unchanged) and the parser unions a dominant
duplicate concretely; the ENA adapter instead aggregates age through
the same most-frequent reducer as every other run field, collapsing
heterogeneous ages. -/
theorem C6_age_union_amended :
    (∀ (ages : List String) (x : String), x ∈ ages →
        joinSortedUnique (x :: ages) = joinSortedUnique ages) ∧
    parse_sample_soft dominantAgeSoft =
        { tissue := none, age := some "12 months; 6 months", sequencing_type := "" } ∧
    ena_fetch_run (HResp.ok (some agesRunBody)) =
        Except.ok (some [("age", Json.str "8 weeks")]) := by
  refine ⟨?_, rfl, rfl⟩
  intro ages x hx
  have h : ∀ y, y ∈ (x :: ages) ↔ y ∈ ages := by
    intro y
    constructor
    · intro hy
      rcases List.mem_cons.mp hy with rfl | hy
      · exact hx
      · exact hy
    · exact List.mem_cons_of_mem x
  unfold joinSortedUnique
  rw [sorted_unique_ext h]

/-- C6 witness: duplicating a present age value leaves the union
unchanged at a concrete input. -/
theorem C6_age_union_amended_witness :
    joinSortedUnique ["a", "a"] = joinSortedUnique ["a"] :=
  C6_age_union_amended.1 ["a"] "a" (by decide)

/-- Under a non-GSE alphabetic part or a digit-free accession, the uid
derivation raises ValueError with a non-empty message. -/
theorem accession_to_uid_error (acc : String)
    (h : pyUpper (String.mk (acc.data.filter Char.isAlpha)) ≠ "GSE" ∨
         acc.data.all (fun c => !c.isDigit) = true) :
    ∃ msg, accession_to_uid acc = Except.error msg ∧ msg ≠ "" := by
  unfold accession_to_uid
  by_cases hc : pyUpper (String.mk (acc.data.filter Char.isAlpha)) ≠ "GSE" ∨
      String.mk (acc.data.filter (fun c => !c.isAlpha)) = ""
  · rw [if_pos hc]
    exact ⟨_, rfl, str_append_ne_empty "Invalid GSE accession: " acc (by decide)⟩
  · rw [if_neg hc]
    push_neg at hc
    obtain ⟨hpre, hnum⟩ := hc
    rcases h with h | h
    · exact absurd hpre h
    · have hnotall :
          ¬(String.mk (acc.data.filter (fun c => !c.isAlpha)) ≠ "" ∧
            (String.mk (acc.data.filter (fun c => !c.isAlpha))).data.all Char.isDigit) := by
        rintro ⟨-, hall⟩
        have hne : acc.data.filter (fun c => !c.isAlpha) ≠ [] := by
          intro hnil
          exact hnum (congrArg String.mk hnil)
        obtain ⟨c, hcmem⟩ := List.exists_mem_of_ne_nil _ hne
        have hdig : c.isDigit = true := List.all_eq_true.mp hall c hcmem
        have hcacc : c ∈ acc.data := List.mem_of_mem_filter hcmem
        have hnd := List.all_eq_true.mp h c hcacc
        rw [hdig] at hnd
        exact Bool.noConfusion hnd
      unfold pyIntDigits
      rw [if_neg hnotall]
      refine ⟨_, rfl, str_append_ne_empty "ValueError: invalid literal for int() with base 10: "
        (String.mk (acc.data.filter (fun c => !c.isAlpha))) (by decide)⟩

/-- C9: the uid derivation maps GSE149739 to 200149739 and GSE1 to
200000001; a non-GSE alphabetic part or a digit-free accession makes
the derivation raise ValueError, which fetch catches and turns into an
error-status record without any HTTP call. -/
theorem C9_uid_derivation :
    accession_to_uid "GSE149739" = Except.ok 200149739 ∧
    accession_to_uid "GSE1" = Except.ok 200000001 ∧
    (∀ (w : GeoWorld) (acc : String),
      (pyUpper (String.mk (acc.data.filter Char.isAlpha)) ≠ "GSE" ∨
        acc.data.all (fun c => !c.isDigit) = true) →
      ∃ r, geo_fetch w acc = (Except.ok r, 0) ∧
        r.fetch_status = "error" ∧ r.error_message ≠ "" ∧ r.accession = acc) := by
  refine ⟨rfl, rfl, ?_⟩
  intro w acc h
  obtain ⟨msg, hmsg, hne⟩ := accession_to_uid_error acc h
  refine ⟨{ accession := acc, fetch_status := "error", error_message := msg }, ?_, rfl, hne, rfl⟩
  unfold geo_fetch
  rw [hmsg]

/-- C9 witness: a non-GSE accession yields an error record and zero
network calls. -/
theorem C9_uid_derivation_witness :
    ∃ r, geo_fetch failWorld.geo "ABC123" = (Except.ok r, 0) ∧
      r.fetch_status = "error" ∧ r.error_message ≠ "" ∧ r.accession = "ABC123" :=
  C9_uid_derivation.2.2 failWorld.geo "ABC123" (Or.inl (by decide))

/-- C7: assay classification is a pure function of the source-field
set and molecule-field set, and matches the four specified cases
(empty source list gives the empty string, not other). -/
theorem C7_classification :
    (∀ ls ls' ms ms' : List String,
        (∀ x, x ∈ ls ↔ x ∈ ls') → (∀ x, x ∈ ms ↔ x ∈ ms') →
        classify_sequencing_type ls ms = classify_sequencing_type ls' ms') ∧
    classify_sequencing_type ["transcriptomic single cell"] ["nuclear rna"] = "single nuclei" ∧
    classify_sequencing_type ["transcriptomic single cell"] ["polya rna"] = "single cell" ∧
    (∀ ms, classify_sequencing_type ["transcriptomic"] ms = "bulk") ∧
    (∀ ms, classify_sequencing_type [] ms = "") := by
  refine ⟨?_, rfl, rfl, fun ms => rfl, fun ms => rfl⟩
  intro ls ls' ms ms' hl hm
  have hempty : ls.isEmpty = ls'.isEmpty := by
    cases ls with
    | nil =>
      cases ls' with
      | nil => rfl
      | cons y ys => exact absurd ((hl y).mpr (List.mem_cons_self y ys)) (List.not_mem_nil y)
    | cons x xs =>
      cases ls' with
      | nil => exact absurd ((hl x).mp (List.mem_cons_self x xs)) (List.not_mem_nil x)
      | cons y ys => rfl
  have hany : ∀ p : String → Bool, ls.any p = ls'.any p := by
    intro p
    cases h1 : ls.any p <;> cases h2 : ls'.any p
    · rfl
    · obtain ⟨x, hx, hpx⟩ := List.any_eq_true.mp h2
      rw [← h1]
      exact List.any_eq_true.mpr ⟨x, (hl x).mpr hx, hpx⟩
    · obtain ⟨x, hx, hpx⟩ := List.any_eq_true.mp h1
      rw [← h2]
      exact (List.any_eq_true.mpr ⟨x, (hl x).mp hx, hpx⟩).symm
    · rfl
  have hmany : ∀ p : String → Bool, ms.any p = ms'.any p := by
    intro p
    cases h1 : ms.any p <;> cases h2 : ms'.any p
    · rfl
    · obtain ⟨x, hx, hpx⟩ := List.any_eq_true.mp h2
      rw [← h1]
      exact List.any_eq_true.mpr ⟨x, (hm x).mpr hx, hpx⟩
    · obtain ⟨x, hx, hpx⟩ := List.any_eq_true.mp h1
      rw [← h2]
      exact (List.any_eq_true.mpr ⟨x, (hm x).mp hx, hpx⟩).symm
    · rfl
  unfold classify_sequencing_type
  rw [hempty,
    hany (fun src => SINGLE_CELL_KEYWORDS.any (fun kw => substrB src kw)),
    hmany (fun mol => NUCLEAR_RNA_KEYWORDS.any (fun kw => substrB mol kw)),
    hany (fun src => substrB src "transcriptomic"),
    hany (fun src => substrB src "genomic")]

/-- C7 witness: purity applied at concrete permuted lists, and the
bulk case at a concrete molecule list. -/
theorem C7_classification_witness :
    classify_sequencing_type ["genomic", "metagenomic"] ["dna"] =
        classify_sequencing_type ["metagenomic", "genomic"] ["dna"] ∧
    classify_sequencing_type ["transcriptomic"] ["polya rna"] = "bulk" := by
  constructor
  · exact C7_classification.1 ["genomic", "metagenomic"] ["metagenomic", "genomic"] ["dna"] ["dna"]
      (by intro x; simp; tauto) (by intro x; simp)
  · exact C7_classification.2.2.2.1 ["polya rna"]

/-- C3: routing. An accession whose leading alphabetic run is absent
or not a registered key gets an error record naming the bad key (the
uppercased run when present, else the stripped accession) with zero
network calls; a registered key delegates to the owning adapter, whose
result is returned unmodified; and the registered keys are exactly GSE
and ERP. -/
theorem C3_dispatcher_routing :
    (∀ (w : World) (acc : String),
        routeOf (detect_routing_key (pyStrip acc)) = none →
        fetch_one w acc =
          (Except.ok { accession := pyStrip acc, fetch_status := "error", error_message := "Unsupported accession prefix: " ++ ((detect_routing_key (pyStrip acc)).getD (pyStrip acc)) }, 0)) ∧
    (∀ (w : World) (acc : String),
        routeOf (detect_routing_key (pyStrip acc)) = some FetcherTag.geo →
        fetch_one w acc = geo_fetch w.geo (pyStrip acc)) ∧
    (∀ (w : World) (acc : String),
        routeOf (detect_routing_key (pyStrip acc)) = some FetcherTag.ena →
        fetch_one w acc = ena_fetch w.ena (pyStrip acc)) ∧
    (∀ p : String, routeOf (some p) = none ↔ p ≠ "GSE" ∧ p ≠ "ERP") := by
  refine ⟨?_, ?_, ?_, ?_⟩
  · intro w acc h
    unfold fetch_one
    dsimp only
    rw [h]
    cases hk : detect_routing_key (pyStrip acc) <;> rfl
  · intro w acc h
    unfold fetch_one
    dsimp only
    rw [h]
  · intro w acc h
    unfold fetch_one
    dsimp only
    rw [h]
  · intro p
    by_cases h1 : p = "GSE"
    · subst h1
      constructor
      · intro h
        exact absurd h (by decide)
      · rintro ⟨ha, -⟩
        exact absurd rfl ha
    · by_cases h2 : p = "ERP"
      · subst h2
        constructor
        · intro h
          exact absurd h (by decide)
        · rintro ⟨-, hb⟩
          exact absurd rfl hb
      · constructor
        · intro _
          exact ⟨h1, h2⟩
        · intro _
          have hmap : routing_map = [("GSE", FetcherTag.geo), ("ERP", FetcherTag.ena)] := rfl
          unfold routeOf
          rw [hmap]
          have e1 : ("GSE" = p) = False := by
            simp only [eq_iff_iff, iff_false]
            exact fun he => h1 he.symm
          have e2 : ("ERP" = p) = False := by
            simp only [eq_iff_iff, iff_false]
            exact fun he => h2 he.symm
          simp [List.find?, e1, e2]

/-- C3 witness: the unknown-key case at a concrete padded accession
(zero calls, message naming the uppercased run) and the known-key case
delegating to the GEO adapter. -/
theorem C3_dispatcher_routing_witness :
    fetch_one failWorld "  xyz999 " =
      (Except.ok { accession := "xyz999", fetch_status := "error", error_message := "Unsupported accession prefix: XYZ" }, 0) ∧
    fetch_one failWorld "GSE1" = geo_fetch failWorld.geo "GSE1" := by
  constructor
  · have h := C3_dispatcher_routing.1 failWorld "  xyz999 " (by decide)
    exact h
  · exact C3_dispatcher_routing.2.1 failWorld "GSE1" (by decide)

/-- C4: counterexample. With a malformed eSummary body the single GEO
fetch raises, the comprehension in fetch_all aborts, and no list of
records is returned at all, so the output cannot match the input
length. -/
theorem C4_fetch_all_counterexample :
    ¬ ∃ rs : List MetadataRecord, (fetch_all malformedWorld ["GSE1"]).1 = Except.ok rs := by
  rintro ⟨rs, h⟩
  have he : (fetch_all malformedWorld ["GSE1"]).1 =
      Except.error "JSONDecodeError: response body is not valid JSON" := rfl
  rw [he] at h
  exact Except.noConfusion h

/-- C4 amended: whenever fetch_all does return a list, it has one
record per input accession, in input order, each equal to the
fetch_one result of the corresponding accession. -/
theorem C4_fetch_all_amended :
    ∀ (w : World) (accs : List String) (rs : List MetadataRecord),
      (fetch_all w accs).1 = Except.ok rs →
      rs.length = accs.length ∧
      ∀ pr ∈ accs.zip rs, (fetch_one w pr.1).1 = Except.ok pr.2 := by
  intro w accs
  induction accs with
  | nil =>
    intro rs h
    unfold fetch_all at h
    dsimp only at h
    injection h with h
    subst h
    exact ⟨rfl, by simp⟩
  | cons a rest ih =>
    intro rs h
    unfold fetch_all at h
    cases hp : fetch_one w a with
    | mk r1 c1 =>
      rw [hp] at h
      cases r1 with
      | error e => exact Except.noConfusion h
      | ok rec =>
        cases hq : fetch_all w rest with
        | mk r2 c2 =>
          rw [hq] at h
          cases r2 with
          | error e => exact Except.noConfusion h
          | ok rs' =>
            dsimp only at h
            injection h with h
            subst h
            have hrest : (fetch_all w rest).1 = Except.ok rs' := by rw [hq]
            obtain ⟨hlen, hall⟩ := ih rs' hrest
            refine ⟨by simp [hlen], ?_⟩
            intro pr hpr
            rcases List.mem_cons.mp hpr with rfl | hpr
            · rw [hp]
            · exact hall pr hpr

/-- C4 witness: a two-accession batch (one unroutable, one failing at
the adapter) still yields two records in input order. -/
theorem C4_fetch_all_amended_witness :
    ([{ accession := "XYZ1", fetch_status := "error", error_message := "Unsupported accession prefix: XYZ" }, { accession := "GSE1", fetch_status := "error", error_message := "eSummary returned no data" }] : List MetadataRecord).length = (["XYZ1", "GSE1"] : List String).length ∧
    ∀ pr ∈ (["XYZ1", "GSE1"] : List String).zip
        ([{ accession := "XYZ1", fetch_status := "error", error_message := "Unsupported accession prefix: XYZ" }, { accession := "GSE1", fetch_status := "error", error_message := "eSummary returned no data" }] : List MetadataRecord),
      (fetch_one failWorld pr.1).1 = Except.ok pr.2 :=
  C4_fetch_all_amended failWorld ["XYZ1", "GSE1"] _ rfl

/-- Replacing each chunk element-wise keeps the flattened length. -/
theorem map_map_flatten_length (chunks : List (List String))
    (f : List String → String → String) :
    ((chunks.map (fun b => b.map (f b))).flatten).length = (chunks.flatten).length := by
  induction chunks with
  | nil => rfl
  | cons b bs ih => simp [ih]

/-- C8: counterexample. With a result dict that resolves id 1 and
carries a malformed document for id 2, the citation for id 1 is
appended, then format_citation raises KeyError mid-batch and the
except handler appends fallback strings for the whole batch: three
outputs for two unique ids. -/
theorem C8_resolve_counterexample :
    (resolve midRaisePmWorld ["1", "2"]).1 =
      ["Smith J (2020). Cortical gene expression in mice. Nat Neurosci. PMID:1",
       "PMID:1", "PMID:2"] ∧
    dedupFirst ["1", "2"] = ["1", "2"] ∧
    (resolve midRaisePmWorld ["1", "2"]).1.length ≠ (dedupFirst ["1", "2"]).length :=
  ⟨rfl, rfl, by decide⟩

/-- C8 amended: resolve of the empty list is empty; duplicates collapse
to the first occurrence; when no batch raises mid-processing, resolve
emits exactly one string per unique id, in first-occurrence order (the
per-id outcome of its batch), so the output length equals the number of
unique ids; and a batch whose call fails yields exactly the fallback
string per id. resolve itself never raises (it is a total function of
the world). -/
theorem C8_resolve_amended :
    (∀ w : PmWorld, (resolve w []).1 = []) ∧
    (∀ (w : PmWorld) (i : String), (resolve w [i, i]).1 = (resolve w [i]).1) ∧
    (∀ (w : PmWorld) (ids : List String),
        (chunksOf MAX_IDS_PER_REQUEST (dedupFirst ids)).all (fun b => batchClean w b) = true →
        (resolve w ids).1 =
          ((chunksOf MAX_IDS_PER_REQUEST (dedupFirst ids)).map
            (fun b => b.map (perIdOutcome w b))).flatten ∧
        (resolve w ids).1.length = (dedupFirst ids).length) ∧
    (∀ (w : PmWorld) (i : String), w [i] = HResp.failure →
        (resolve w [i]).1 = ["PMID:" ++ i]) := by
  refine ⟨fun w => rfl, ?_, ?_, ?_⟩
  · intro w i
    have hd : dedupFirst [i, i] = [i] := by simp [dedupFirst, dedupFirstAux]
    have hd2 : dedupFirst [i] = [i] := by simp [dedupFirst, dedupFirstAux]
    unfold resolve
    simp [hd, hd2]
  · intro w ids h
    have hflat : (chunksOf MAX_IDS_PER_REQUEST (dedupFirst ids)).flatten = dedupFirst ids :=
      chunksOf_flatten _ (by decide) _
    have hcore : (resolve w ids).1 =
        ((chunksOf MAX_IDS_PER_REQUEST (dedupFirst ids)).map
          (fun b => b.map (perIdOutcome w b))).flatten := by
      by_cases hids : ids = []
      · subst hids
        rfl
      · unfold resolve
        have hie : ids.isEmpty = false := by
          cases ids with
          | nil => exact absurd rfl hids
          | cons a as => rfl
        rw [hie, if_neg (by simp)]
        dsimp only
        apply congrArg List.flatten
        apply List.map_congr_left
        intro b hb
        exact batchOut_clean w b (List.all_eq_true.mp h b hb)
    refine ⟨hcore, ?_⟩
    have hlen := map_map_flatten_length (chunksOf MAX_IDS_PER_REQUEST (dedupFirst ids))
      (fun b => perIdOutcome w b)
    rw [hcore, hlen, hflat]
  · intro w i hw
    have hd2 : dedupFirst [i] = [i] := by simp [dedupFirst, dedupFirstAux]
    unfold resolve
    simp [hd2, batchOut, hw, chunksOf, chunksOfFuel, MAX_IDS_PER_REQUEST,
      dedupFirst, dedupFirstAux, List.take_nil]

/-- C8 witness: a clean world (every document missing, so every id
falls back without raising) satisfies the one-output-per-unique-id
correspondence and the length equation. -/
theorem C8_resolve_amended_witness :
    (resolve emptyResultPmWorld ["7", "9", "7"]).1 =
      ((chunksOf MAX_IDS_PER_REQUEST (dedupFirst ["7", "9", "7"])).map
        (fun b => b.map (perIdOutcome emptyResultPmWorld b))).flatten ∧
    (resolve emptyResultPmWorld ["7", "9", "7"]).1.length =
      (dedupFirst ["7", "9", "7"]).length :=
  C8_resolve_amended.2.2.1 emptyResultPmWorld ["7", "9", "7"] (by decide)

/-- enaApplyRun never touches the status fields. -/
theorem enaApplyRun_status (r : MetadataRecord) (runOpt : Option (List (String × Json)))
    (r' : MetadataRecord) (h : enaApplyRun r runOpt = Except.ok r') :
    r'.fetch_status = r.fetch_status := by
  unfold enaApplyRun at h
  split at h
  · injection h with h
    rw [← h]
  · split at h
    · exact Except.noConfusion h
    · injection h with h
      rw [← h]

/-- C10: neither adapter ever assigns the partial status - every record
an adapter fetch returns carries fetch_status success or error. -/
theorem C10_status_success_or_error :
    (∀ (w : GeoWorld) (acc : String) (r : MetadataRecord),
        (geo_fetch w acc).1 = Except.ok r →
        r.fetch_status = "success" ∨ r.fetch_status = "error") ∧
    (∀ (w : EnaWorld) (acc : String) (r : MetadataRecord),
        (ena_fetch w acc).1 = Except.ok r →
        r.fetch_status = "success" ∨ r.fetch_status = "error") := by
  constructor
  · intro w acc r h
    unfold geo_fetch at h
    dsimp only at h
    repeat' split at h
    any_goals simp_all
    all_goals rw [← h]
    all_goals first
      | (left; rfl)
      | (right; rfl)
  · intro w acc r h
    unfold ena_fetch at h
    dsimp only at h
    repeat' split at h
    any_goals simp_all
    all_goals rw [← h]
    all_goals first
      | (left; rfl)
      | (right; rfl)
      | (left; dsimp only; rw [enaApplyRun_status _ _ _ (by assumption)])

/-- C10 witness: the error-status record of a failing GEO fetch and
the success record of a trivially succeeding path both satisfy the
two-status property. -/
theorem C10_status_witness :
    ({ accession := "GSE1", fetch_status := "error", error_message := "eSummary returned no data" } : MetadataRecord).fetch_status = "success" ∨
    ({ accession := "GSE1", fetch_status := "error", error_message := "eSummary returned no data" } : MetadataRecord).fetch_status = "error" :=
  C10_status_success_or_error.1 failWorld.geo "GSE1" _ rfl
